import Mathlib

/-!
Shallow embedding of the doku JSON printer core: the schema model, the
rendering context (`src/doku/src/printers/json/ctxt.rs`), the array printer
(`src/doku/src/printers/json/print_array.rs`), the one-column layout renderer
(`src/doku/src/printers/json/output/layouts/one_column.rs`), the auto-comment
configuration (`src/doku/src/printers/json/formatting/auto_comments.rs`) and
the tag-strategy computation of the derive macro
(`src/doku-derive/src/expand/expand_enum.rs`), together with theorems checking
the specification's claims about them.
-/

namespace Doku

/-- Modelled from the spec: "an optional example value or set of candidate
examples" and the distinguished "*literal* example value" that the dispatcher
short-circuits on (the `Example` enum itself is not under `src/`; `ctxt.rs`
matches on its `Literal` variant and calls `Example::first`). -/
inductive Example where
  | simple (s : String)
  | literal (s : String)
  | compound (ss : List String)
deriving DecidableEq, Repr

/-- Modelled from the spec: the first of the candidate examples, used by
`Ctxt::first_example` via `Example::first`. -/
def Example.first : Example → Option String
  | .simple s => some s
  | .literal s => some s
  | .compound ss => ss.head?

/-- A free-form metadata key/value annotation carried by a schema node
(spec section 3); `ctxt.rs` reads `meta.key()`. -/
structure TyMeta where
  key : String
  value : String
deriving DecidableEq, Repr

/-- The enum tag strategy (`::doku::Tag` as produced by `expand_enum.rs`). -/
inductive Tag where
  | none
  | external
  | internal (tag : String)
  | adjacent (tag : String) (content : String)
deriving DecidableEq, Repr

/-- Modelled from the spec: "visibility mode (serializable-only /
deserializable-only / both)" (section 6); the `Visibility` enum itself is not
under `src/`, only its caller `Ctxt::print` is. -/
inductive Visibility where
  | serializableOnly
  | deserializableOnly
  | serializableAndDeserializable
deriving DecidableEq, Repr

/-- Modelled from the spec: whether the filter accepts a node with the given
`serializable` / `deserializable` flags; a node whose two flags are both
rejected yields `false` in every mode. -/
def Visibility.allows : Visibility → Bool → Bool → Bool
  | .serializableOnly, ser, _ => ser
  | .deserializableOnly, _, deser => deser
  | .serializableAndDeserializable, ser, deser => ser || deser

mutual

/-- The schema node (Rust `Type`; `Type` is a Lean keyword, hence `Ty`):
comment, example, metadata, the two visibility flags, and the kind
(spec section 3; the struct itself is declared outside `src/`, its fields are
those read by `ctxt.rs` and `print_array.rs`). -/
inductive Ty where
  | mk (comment : Option String) (example' : Option Example) (metas : List TyMeta)
       (serializable : Bool) (deserializable : Bool) (kind : TypeKind)

/-- The kinds of schema nodes (Rust `TypeKind`), as matched by
`Ctxt::print_inner` and `Ctxt::with_ty`. The field, variant and type lists are
the bespoke list types below because Lean does not accept `List` applied to a
member of the mutual block. -/
inductive TypeKind where
  | bool
  | float
  | integer
  | string
  | array (ty : Ty) (size : Option Nat)
  | enum (tag : Tag) (variants : Variants)
  | struct (fields : Fields) (transparent : Bool)
  | tuple (fields : Tys)
  | map (key : Ty) (value : Ty)
  | optional (ty : Ty)

/-- A list of schema nodes (tuple fields). -/
inductive Tys where
  | nil
  | cons (head : Ty) (tail : Tys)

/-- A named struct field (spec section 3: "ordered named fields, each with its
own schema node"). -/
inductive Field where
  | mk (name : String) (ty : Ty)

/-- A list of struct fields. -/
inductive Fields where
  | nil
  | cons (head : Field) (tail : Fields)

/-- An enum variant (spec section 3: "each carrying a payload schema"). -/
inductive Variant where
  | mk (id : String) (comment : Option String) (fields : Fields)

/-- A list of enum variants. -/
inductive Variants where
  | nil
  | cons (head : Variant) (tail : Variants)

end

def Ty.comment : Ty → Option String
  | .mk c _ _ _ _ _ => c

def Ty.example' : Ty → Option Example
  | .mk _ e _ _ _ _ => e

def Ty.metas : Ty → List TyMeta
  | .mk _ _ m _ _ _ => m

def Ty.serializable : Ty → Bool
  | .mk _ _ _ s _ _ => s

def Ty.deserializable : Ty → Bool
  | .mk _ _ _ _ d _ => d

def Ty.kind : Ty → TypeKind
  | .mk _ _ _ _ _ k => k

/-- The `matches!(_, TypeKind::Struct { transparent: true, fields: _ })` test
of `Ctxt::with_ty`. -/
def TypeKind.isTransparentStruct : TypeKind → Bool
  | .struct _ true => true
  | _ => false

/-- `AutoComments` from `formatting/auto_comments.rs`: which automatic hints
get displayed. -/
structure AutoComments where
  array_size : Bool
  optional : Bool
deriving DecidableEq, Repr

/-- `AutoComments::all`. -/
def AutoComments.all : AutoComments :=
  { array_size := true, optional := true }

/-- `AutoComments::none`. -/
def AutoComments.none : AutoComments :=
  { array_size := false, optional := false }

/-- `impl Default for AutoComments` delegates to `Self::all()`. -/
def AutoComments.default : AutoComments :=
  AutoComments.all

/-- Modelled from the spec: the formatting configuration (section 6) with the
pieces the embedded code reads — the enabled auto-comment classes and the
comment separator style (`fmt.comments_style.separator` in `one_column.rs`);
the full `Formatting` struct is not under `src/`. -/
structure Formatting where
  auto_comments : AutoComments
  separator : String
deriving DecidableEq, Repr

/-- An output line as destructured by `one_column.rs`: ordinal id (insertion
order), indent depth, text body, attached comments. -/
structure Line where
  id : Nat
  indent : Nat
  body : String
  comments : List String
deriving DecidableEq, Repr

/-- Modelled from the spec: the output model (section 4.5) — an ordered
sequence of lines "built incrementally by writer operations (write text, start
new line, increase/decrease indent, attach comment)", with "comments attach to
the next line started"; the construction code is not under `src/`, only the
renderer consuming `out.lines()` and `out.fmt.comments_style.separator` is.
`separator` stands for the latter. -/
structure Output where
  lines : List Line
  indent : Nat
  pending : List String
  separator : String
deriving DecidableEq, Repr

/-- Modelled from the spec: start a new logical line, which receives the
pending comments and the current indent; ids are insertion ordinals. -/
def Output.line (o : Output) (s : String) : Output :=
  { o with
      lines := o.lines ++ [{ id := o.lines.length, indent := o.indent, body := s,
                             comments := o.pending }]
      pending := [] }

/-- Append a string to the body of the last line of the list. -/
def appendToLastLine (s : String) : List Line → List Line
  | [] => []
  | [l] => [{ l with body := l.body ++ s }]
  | l :: l' :: ls => l :: appendToLastLine s (l' :: ls)

/-- Modelled from the spec: the "write text" operation (`Output::write`,
`Output::text`) appends to the current line, starting the first line when none
exists yet. -/
def Output.write (o : Output) (s : String) : Output :=
  match o.lines with
  | [] => o.line s
  | _ :: _ => { o with lines := appendToLastLine s o.lines }

/-- `text` is the same writer operation under the array printer's name. -/
def Output.text (o : Output) (s : String) : Output :=
  o.write s

/-- Modelled from the spec: increase the indent level. -/
def Output.inc_indent (o : Output) : Output :=
  { o with indent := o.indent + 1 }

/-- Modelled from the spec: decrease the indent level. -/
def Output.dec_indent (o : Output) : Output :=
  { o with indent := o.indent - 1 }

/-- Modelled from the spec: attach a comment to the next line started. -/
def Output.comment (o : Output) (s : String) : Output :=
  { o with pending := o.pending ++ [s] }

/-- Modelled from the spec: the optional sample value threaded through the
context ("current value (if any)"); never inspected by the embedded code. -/
inductive Value where
  | sample
deriving DecidableEq, Repr

/-- The rendering context of `ctxt.rs` (`Ctxt`): current node, optional value,
visibility filter, formatting, output handle, map-key flag, parent node,
example override, flatten flag and recursion depth. `depth` is a `u8` in the
source; it is a `Nat` here with the `u8` ceiling made explicit in `nested`. -/
structure Ctxt where
  ty : Ty
  val : Option Value
  vis : Visibility
  fmt : Formatting
  out : Output
  is_key : Bool
  parent : Option Ty
  example' : Option Example
  flat : Bool
  depth : Nat

/-- `u8::checked_add` on the depth counter: `none` models the arithmetic
overflow that `Ctxt::nested` turns into a panic. -/
def checkedAddU8 (a b : Nat) : Option Nat :=
  if a + b ≤ 255 then some (a + b) else Option.none

/-- `Ctxt::nested`: clone the context, keep the same output handle, clear the
map-key flag, and increment the depth with `checked_add(1).expect(..)` — the
`Option.none` result models the panic on overflow. -/
def Ctxt.nested (c : Ctxt) : Option Ctxt :=
  match checkedAddU8 c.depth 1 with
  | some d =>
      some { ty := c.ty, val := c.val, vis := c.vis, fmt := c.fmt, out := c.out,
             is_key := false, parent := c.parent, example' := c.example',
             flat := c.flat, depth := d }
  | Option.none => Option.none

/-- `Ctxt::with_ty`: record the current node as parent, swap in the child,
keep the flatten flag only when leaving a transparent struct, clear the
example override. -/
def Ctxt.with_ty (c : Ctxt) (ty : Ty) : Ctxt :=
  let keep_flat := c.ty.kind.isTransparentStruct
  { c with
      parent := some c.ty
      ty := ty
      flat := c.flat && keep_flat
      example' := Option.none }

/-- `Ctxt::with_val`. -/
def Ctxt.with_val (c : Ctxt) (val : Option Value) : Ctxt :=
  { c with val := val }

/-- `Ctxt::with_fmt`: swap the formatting configuration and clear the map-key
flag; everything else is copied. -/
def Ctxt.with_fmt (c : Ctxt) (fmt : Formatting) : Ctxt :=
  { ty := c.ty, val := c.val, vis := c.vis, fmt := fmt, out := c.out,
    is_key := false, parent := c.parent, example' := c.example',
    flat := c.flat, depth := c.depth }

/-- `Ctxt::with_example` (the `Into<Example>` conversion is elided: the
argument is already an `Example`). -/
def Ctxt.with_example (c : Ctxt) (example' : Option Example) : Ctxt :=
  { c with example' := example' }

/-- `Ctxt::with_flat`. -/
def Ctxt.with_flat (c : Ctxt) : Ctxt :=
  { c with flat := true }

/-- `Ctxt::set_is_key`. -/
def Ctxt.set_is_key (c : Ctxt) : Ctxt :=
  { c with is_key := true }

/-- `Ctxt::example()`: the override, else the node's own example (named
`resolved_example` here because the field already uses the source name). -/
def Ctxt.resolved_example (c : Ctxt) : Option Example :=
  c.example'.or c.ty.example'

/-- `Ctxt::first_example`. -/
def Ctxt.first_example (c : Ctxt) : Option String :=
  c.resolved_example.bind Example.first

/-- `Ctxt::literal_example`: the resolved example when it is a `Literal`. -/
def Ctxt.literal_example (c : Ctxt) : Option String :=
  c.resolved_example.bind fun e =>
    match e with
    | .literal s => some s
    | _ => Option.none

/-- Modelled from the spec: `Ctxt::print_comment` (not under `src/`) — "any
attached comment is emitted as an output comment line" before kind-specific
printing. -/
def Ctxt.print_comment (c : Ctxt) : Ctxt :=
  match c.ty.comment with
  | some s => { c with out := c.out.comment s }
  | Option.none => c

/-- `Ctxt::print_inner`: emit the comment, then short-circuit on a literal
example, else dispatch on the node kind. The per-kind printers other than the
array printer are outside `src/`, so the whole `match self.ty.kind` dispatch
is abstracted into the `kindPrinter` argument; the theorems about
`print_inner` hold for every instantiation of it. -/
def Ctxt.print_inner (kindPrinter : Ctxt → Output) (c : Ctxt) : Output :=
  let c := c.print_comment
  match c.literal_example with
  | some ex => c.out.write ex
  | Option.none => kindPrinter c

/-- `Ctxt::print`: silently skip nodes rejected by the visibility filter, then
specialize the formatting when a `fmt` / `fmt.`-prefixed metadata key is
present (`Formatting::customize` is outside `src/` and is abstracted into the
`customize` argument), and run `print_inner`. -/
def Ctxt.print (customize : Formatting → List TyMeta → Formatting)
    (kindPrinter : Ctxt → Output) (c : Ctxt) : Output :=
  if !(c.vis.allows c.ty.serializable c.ty.deserializable) then
    c.out
  else
    let requires_custom_formatting :=
      c.ty.metas.any fun meta => meta.key == "fmt" || meta.key.startsWith "fmt."
    if requires_custom_formatting then
      (c.with_fmt (customize c.fmt c.ty.metas)).print_inner kindPrinter
    else
      c.print_inner kindPrinter

/-- Rust `str::starts_with` with a `char` pattern, as in
`example.starts_with('[')`: whether the first character of `s` is `c` (spelled
out because `String.startsWith` does not reduce in the kernel). -/
def startsWithChar (s : String) (c : Char) : Bool :=
  s.data.head? == some c

/-- The rendering context of `print_array.rs` (that file addresses an earlier
revision of `Ctxt`, with a `mode` visibility filter, an `inline` layout flag
and a plain-string example): only the pieces `print_array` reads are carried.
`example'` models the `self.example()` accessor's result. -/
structure ACtxt where
  ty : Ty
  mode : Visibility
  inline : Bool
  example' : Option String
  out : Output

/-- `Ctxt::print_array` from `print_array.rs`: skip invisible element types,
short-circuit on an example that starts with the opening bracket, otherwise
open a bracketed block (inline or multi-line), expand by variant or print one
representative element plus an ellipsis marker, and close the bracket.
`expand_variants` (its module is not under `src/`) and the recursive
`self.with_ty(ty).print()` call are abstracted into the `expand_variants` and
`print_sub` arguments; `expand_variants` returns whether it expanded, plus the
output it produced. -/
def ACtxt.print_array (expand_variants : ACtxt → Ty → Bool × Output)
    (print_sub : ACtxt → Ty → Output) (c : ACtxt) (ty : Ty) : Output :=
  if !(c.mode.allows ty.serializable ty.deserializable) then
    c.out
  else
    let rest : Output :=
      let out1 := if c.inline then c.out.text "[ " else (c.out.line "[").inc_indent
      let res := expand_variants { c with out := out1 } ty
      let out2 :=
        if !res.1 then
          let outP := print_sub { c with out := res.2 } ty
          if c.inline then
            outP.text ", /* ... */"
          else
            (outP.line ",").line "/* ... */"
        else
          res.2
      if c.inline then
        out2.text " ]"
      else
        out2.dec_indent.text "]"
    match c.example' with
    | some ex => if startsWithChar ex '[' then c.out.text ex else rest
    | Option.none => rest

/-- The indentation prefix: `swrite!(result, for 0..indent, " ")`. -/
def indentStr (n : Nat) : String :=
  String.mk (List.replicate n ' ')

/-- The per-line step of `render` in `one_column.rs`: a newline when the
line's ordinal id is positive, then each comment on its own line — indent,
separator, a space, the comment, newline — then the indented body. -/
def renderLine (sep : String) (acc : String) (l : Line) : String :=
  (l.comments.foldl
      (fun a comment => a ++ indentStr l.indent ++ sep ++ " " ++ comment ++ "\n")
      (if l.id > 0 then acc ++ "\n" else acc))
    ++ indentStr l.indent ++ l.body

/-- `render` from `one_column.rs`: fold the per-line step over `out.lines()`
in order, starting from the empty string; `sep` is
`out.fmt.comments_style.separator`. -/
def render (out : Output) : String :=
  out.lines.foldl (renderLine out.separator) ""

/-- Concatenation of a list of strings (spelled out to keep proofs by plain
induction). -/
def strConcat : List String → String
  | [] => ""
  | s :: ss => s ++ strConcat ss

/-- The claim's description of one rendered line: every attached comment on
its own line, indented and prefixed by the separator, before the indented
body. -/
def renderedLineSpec (sep : String) (l : Line) : String :=
  strConcat (l.comments.map fun comment =>
    indentStr l.indent ++ sep ++ " " ++ comment ++ "\n")
  ++ indentStr l.indent ++ l.body

/-- The claim's description of the whole renderer: visit lines in insertion
order and emit the blank-line separator `"\n"` before every line except the
first. -/
def renderSpec (out : Output) : String :=
  match out.lines with
  | [] => ""
  | l :: ls =>
      renderedLineSpec out.separator l ++
        strConcat (ls.map fun l' => "\n" ++ renderedLineSpec out.separator l')

/-- The tag-strategy computation of `expand_enum` in `expand_enum.rs`: doku
attributes take precedence over serde ones; `untagged` yields `Tag::None`;
otherwise content+tag yields `Adjacent`, content alone falls back to
`External` (serde rejects it anyway), tag alone yields `Internal`, and neither
yields `External`. -/
def expand_enum_tag (doku_untagged serde_untagged : Option Bool)
    (doku_content serde_content : Option String)
    (doku_tag serde_tag : Option String) : Tag :=
  let untagged := doku_untagged.or serde_untagged
  let content := doku_content.or serde_content
  let tag := doku_tag.or serde_tag
  if untagged.getD false then
    Tag.none
  else
    match content, tag with
    | some content', some tag' => Tag.adjacent tag' content'
    | some _, Option.none => Tag.external
    | Option.none, some tag' => Tag.internal tag'
    | Option.none, Option.none => Tag.external

/-! Concrete sample values used by the witness theorems. -/

/-- A plain visible string node. -/
def tyString : Ty :=
  .mk Option.none Option.none [] true true .string

/-- A node whose two visibility flags are both false. -/
def tyHidden : Ty :=
  .mk Option.none Option.none [] false false .string

/-- A transparent single-field struct node. -/
def tyTransparent : Ty :=
  .mk Option.none Option.none [] true true
    (.struct (.cons (.mk "inner" tyString) .nil) true)

/-- A commented node carrying a literal example. -/
def tyLit : Ty :=
  .mk (some "Some comment") (some (Example.literal "\"lit\"")) [] true true .string

/-- A default formatting configuration. -/
def fmt0 : Formatting :=
  { auto_comments := AutoComments.all, separator := "//" }

/-- An empty output accumulator. -/
def out0 : Output :=
  { lines := [], indent := 0, pending := [], separator := "//" }

/-- A fresh rendering context over `tyString`. -/
def ctxt0 : Ctxt :=
  { ty := tyString, val := Option.none, vis := .serializableAndDeserializable,
    fmt := fmt0, out := out0, is_key := false, parent := Option.none,
    example' := Option.none, flat := true, depth := 0 }

/-- A context whose depth counter sits at the `u8` ceiling. -/
def ctxt255 : Ctxt :=
  { ctxt0 with depth := 255 }

/-- A context currently rendering a map key. -/
def ctxtKey : Ctxt :=
  { ctxt0 with is_key := true }

/-- C1: for every context, `with_ty(child)` records the previous current node
as the parent, makes `child` the current node, clears the inherited example
override, and sets the flatten flag to false unless the node being left is a
transparent struct, in which case the flag keeps its previous value. -/
theorem C1_with_ty (c : Ctxt) (child : Ty) :
    (c.with_ty child).parent = some c.ty ∧
    (c.with_ty child).ty = child ∧
    (c.with_ty child).example' = Option.none ∧
    (c.with_ty child).flat = (if c.ty.kind.isTransparentStruct then c.flat else false) := by
  refine ⟨rfl, rfl, rfl, ?_⟩
  cases h : c.ty.kind.isTransparentStruct <;> simp [Ctxt.with_ty, h]

/-- C3: `nested()` increments the depth counter by exactly one and keeps the
same output handle; at the `u8` maximum 255 it fails fatally (the modelled
panic is `Option.none`) instead of wrapping. -/
theorem C3_nested (c : Ctxt) :
    (c.depth < 255 →
      ∃ c', c.nested = some c' ∧ c'.depth = c.depth + 1 ∧ c'.out = c.out) ∧
    (c.depth = 255 → c.nested = Option.none) := by
  constructor
  · intro h
    have h1 : c.depth + 1 ≤ 255 := h
    refine ⟨{ ty := c.ty, val := c.val, vis := c.vis, fmt := c.fmt, out := c.out,
              is_key := false, parent := c.parent, example' := c.example',
              flat := c.flat, depth := c.depth + 1 }, ?_, rfl, rfl⟩
    simp [Ctxt.nested, checkedAddU8, h1]
  · intro h
    simp [Ctxt.nested, checkedAddU8, h]

/-- Witness for C3 at depth 0 (success, depth becomes 1, same output) and at
depth 255 (fatal failure). -/
theorem C3_nested_witness :
    (ctxt0.depth < 255 ∧
      ∃ c', ctxt0.nested = some c' ∧ c'.depth = ctxt0.depth + 1 ∧ c'.out = ctxt0.out) ∧
    (ctxt255.depth = 255 ∧ ctxt255.nested = Option.none) :=
  ⟨⟨by decide, (C3_nested ctxt0).1 (by decide)⟩, ⟨rfl, (C3_nested ctxt255).2 rfl⟩⟩

/-- C10: `nested()` and `with_fmt()` always clear the map-key flag regardless
of the parent's value, `set_is_key` is the only operation that sets it, and
the remaining derivations (`with_ty`, `with_val`, `with_example`, `with_flat`)
merely preserve it. -/
theorem C10_is_key (c : Ctxt) (fmt : Formatting) (t : Ty) (v : Option Value)
    (e : Option Example) :
    (∀ c', c.nested = some c' → c'.is_key = false) ∧
    (c.with_fmt fmt).is_key = false ∧
    c.set_is_key.is_key = true ∧
    (c.with_ty t).is_key = c.is_key ∧
    (c.with_val v).is_key = c.is_key ∧
    (c.with_example e).is_key = c.is_key ∧
    c.with_flat.is_key = c.is_key := by
  refine ⟨?_, rfl, rfl, rfl, rfl, rfl, rfl⟩
  intro c' h
  simp only [Ctxt.nested] at h
  split at h
  · injection h with h
    subst h
    rfl
  · exact Option.noConfusion h

/-- Witness for C10 at a context whose map-key flag is set: the nested child
and the reformatted child drop it, `set_is_key` keeps it. -/
theorem C10_is_key_witness :
    ctxtKey.is_key = true ∧
    ctxtKey.nested = some { ctxtKey with is_key := false, depth := 1 } ∧
    ({ ctxtKey with is_key := false, depth := 1 } : Ctxt).is_key = false ∧
    (ctxtKey.with_fmt fmt0).is_key = false ∧
    ctxtKey.set_is_key.is_key = true := by
  have hnested : ctxtKey.nested = some { ctxtKey with is_key := false, depth := 1 } := rfl
  exact ⟨rfl, hnested,
    (C10_is_key ctxtKey fmt0 tyString Option.none Option.none).1 _ hnested,
    (C10_is_key ctxtKey fmt0 tyString Option.none Option.none).2.1,
    (C10_is_key ctxtKey fmt0 tyString Option.none Option.none).2.2.1⟩

/-- Folding the comment writer over a comment list concatenates the rendered
comment lines after the accumulator. -/
theorem foldl_comments (ind sep : String) (cs : List String) :
    ∀ a : String,
      cs.foldl (fun a comment => a ++ ind ++ sep ++ " " ++ comment ++ "\n") a
        = a ++ strConcat (cs.map fun comment => ind ++ sep ++ " " ++ comment ++ "\n") := by
  induction cs with
  | nil => intro a; simp [strConcat, String.append_empty]
  | cons c cs ih =>
      intro a
      simp only [List.foldl_cons, List.map_cons, strConcat]
      rw [ih]
      simp [String.append_assoc]

/-- A line whose ordinal id is positive renders as the newline separator, the
comment lines, then the indented body, appended to the accumulator. -/
theorem renderLine_id_pos (sep acc : String) (l : Line) (h : l.id > 0) :
    renderLine sep acc l = acc ++ ("\n" ++ renderedLineSpec sep l) := by
  unfold renderLine renderedLineSpec
  rw [if_pos h, foldl_comments]
  simp [String.append_assoc]

/-- A line whose ordinal id is zero renders with no separator before it. -/
theorem renderLine_id_zero (sep acc : String) (l : Line) (h : l.id = 0) :
    renderLine sep acc l = acc ++ renderedLineSpec sep l := by
  unfold renderLine renderedLineSpec
  rw [if_neg (by omega), foldl_comments]
  simp [String.append_assoc]

/-- Folding the line renderer over lines with positive ids emits the separator
before each of them. -/
theorem foldl_renderLine_of_pos (sep : String) (ls : List Line) :
    ∀ acc : String, (∀ l ∈ ls, 0 < l.id) →
      ls.foldl (renderLine sep) acc
        = acc ++ strConcat (ls.map fun l => "\n" ++ renderedLineSpec sep l) := by
  induction ls with
  | nil => intro acc _; simp [strConcat, String.append_empty]
  | cons l ls ih =>
      intro acc h
      simp only [List.foldl_cons, List.map_cons, strConcat]
      rw [renderLine_id_pos sep acc l (h l (List.mem_cons_self l ls)),
          ih _ (fun l' hl' => h l' (List.mem_cons_of_mem l hl')), String.append_assoc]

/-- C6: on a finished output model — ids are the insertion ordinals — the
one-column renderer visits lines in insertion order, emits the blank-line
separator before every line except the first, and prints each attached comment
on its own line, indented to the line's indent and prefixed by the configured
comment separator, before the line's indented body. -/
theorem C6_render_one_column (out : Output)
    (hids : ∀ i (hi : i < out.lines.length), out.lines[i].id = i) :
    render out = renderSpec out := by
  unfold render renderSpec
  cases hl : out.lines with
  | nil => rfl
  | cons l ls =>
      rw [hl] at hids
      have h0 : l.id = 0 := by simpa using hids 0 (by simp)
      have hpos : ∀ l' ∈ ls, 0 < l'.id := by
        intro l' hmem
        obtain ⟨j, hj, hget⟩ := List.getElem_of_mem hmem
        have hj1 : j + 1 < (l :: ls).length := by simpa using Nat.succ_lt_succ hj
        have hid := hids (j + 1) hj1
        rw [List.getElem_cons_succ, hget] at hid
        omega
      show (l :: ls).foldl (renderLine out.separator) "" = _
      rw [List.foldl_cons, renderLine_id_zero _ _ _ h0, String.empty_append,
          foldl_renderLine_of_pos _ _ _ hpos]

/-- A finished three-line output model with a comment on the middle line. -/
def outSample : Output :=
  { lines := [{ id := 0, indent := 0, body := "\x7b", comments := [] },
              { id := 1, indent := 2, body := "\"a\": \"string\"", comments := ["Some comment"] },
              { id := 2, indent := 0, body := "\x7d", comments := [] }],
    indent := 0, pending := [], separator := "//" }

/-- Witness for C6 on `outSample`: its ids are the insertion ordinals and the
rendered text matches the description. -/
theorem C6_render_one_column_witness :
    (∀ i (hi : i < outSample.lines.length), outSample.lines[i].id = i) ∧
    render outSample = renderSpec outSample := by
  have h : ∀ i (hi : i < outSample.lines.length), outSample.lines[i].id = i := by
    intro i hi
    simp only [outSample, List.length_cons, List.length_nil] at hi
    interval_cases i <;> rfl
  exact ⟨h, C6_render_one_column outSample h⟩

/-- `print_comment` touches only the output, so the resolved literal example
is unchanged. -/
theorem print_comment_literal_example (c : Ctxt) :
    c.print_comment.literal_example = c.literal_example := by
  unfold Ctxt.print_comment
  cases h : c.ty.comment <;> simp [h, Ctxt.literal_example, Ctxt.resolved_example]

/-- `with_fmt` touches neither the node nor the example override, so the
resolved literal example is unchanged. -/
theorem with_fmt_literal_example (c : Ctxt) (f : Formatting) :
    (c.with_fmt f).literal_example = c.literal_example := rfl

/-- `with_fmt` keeps the node and the output, so the output after the comment
emission is unchanged. -/
theorem with_fmt_print_comment_out (c : Ctxt) (f : Formatting) :
    (c.with_fmt f).print_comment.out = c.print_comment.out := by
  unfold Ctxt.print_comment
  cases h : c.ty.comment <;> simp [Ctxt.with_fmt, h]

/-- On a node with a literal example, `print_inner` writes the example after
the comment and never reaches the kind dispatch, whatever that dispatch is. -/
theorem print_inner_literal (kindPrinter : Ctxt → Output) (c : Ctxt) (ex : String)
    (h : c.literal_example = some ex) :
    c.print_inner kindPrinter = c.print_comment.out.write ex := by
  simp only [Ctxt.print_inner, print_comment_literal_example, h]

/-- C2: on every node that passes the visibility filter and resolves to a
literal example, `print` writes the example text verbatim (right after the
comment emission) and returns without invoking the kind-specific structural
printer: the result is the same for every kind dispatch. -/
theorem C2_print_literal_example (c : Ctxt) (ex : String)
    (customize : Formatting → List TyMeta → Formatting) (kindPrinter : Ctxt → Output)
    (hvis : c.vis.allows c.ty.serializable c.ty.deserializable = true)
    (hlit : c.literal_example = some ex) :
    Ctxt.print customize kindPrinter c = c.print_comment.out.write ex := by
  unfold Ctxt.print
  rw [hvis]
  simp only [Bool.not_true, Bool.false_eq_true, if_false]
  split
  · rw [print_inner_literal kindPrinter _ ex ((with_fmt_literal_example c _).trans hlit),
        with_fmt_print_comment_out]
  · exact print_inner_literal kindPrinter c ex hlit

/-- A fresh context over the commented literal-example node. -/
def ctxtLit : Ctxt :=
  { ctxt0 with ty := tyLit }

/-- Witness for C2: on `ctxtLit` the printed output is the comment followed by
the literal text, even under a kind dispatch that would write something
else. -/
theorem C2_print_literal_example_witness :
    ctxtLit.vis.allows ctxtLit.ty.serializable ctxtLit.ty.deserializable = true ∧
    ctxtLit.literal_example = some "\"lit\"" ∧
    Ctxt.print (fun f _ => f) (fun c => c.out.write "structural") ctxtLit
      = ctxtLit.print_comment.out.write "\"lit\"" :=
  ⟨rfl, rfl, C2_print_literal_example ctxtLit "\"lit\"" (fun f _ => f)
    (fun c => c.out.write "structural") rfl rfl⟩

/-- C4: on every node whose visibility flags are both rejected by the filter,
`print` is a silent no-op: the output is returned unchanged, for every kind
dispatch and every formatting customization. -/
theorem C4_print_invisible (c : Ctxt)
    (customize : Formatting → List TyMeta → Formatting) (kindPrinter : Ctxt → Output)
    (h : c.vis.allows c.ty.serializable c.ty.deserializable = false) :
    Ctxt.print customize kindPrinter c = c.out := by
  simp [Ctxt.print, h]

/-- A fresh context over the invisible node. -/
def ctxtHidden : Ctxt :=
  { ctxt0 with ty := tyHidden }

/-- Witness for C4: on `ctxtHidden` the filter rejects both flags and `print`
leaves the output untouched, even under a kind dispatch that would write. -/
theorem C4_print_invisible_witness :
    ctxtHidden.vis.allows ctxtHidden.ty.serializable ctxtHidden.ty.deserializable = false ∧
    Ctxt.print (fun f _ => f) (fun c => c.out.write "structural") ctxtHidden
      = ctxtHidden.out :=
  ⟨rfl, C4_print_invisible ctxtHidden (fun f _ => f)
    (fun c => c.out.write "structural") rfl⟩

/-- C5 (amended): on an array whose element type passes the active mode and
whose resolved example text begins with `[`, the array printer writes the
example verbatim and performs no structural rendering — the result is a single
text write, for every variant expansion and element printer. -/
theorem C5_print_array_literal (c : ACtxt) (ty : Ty) (ex : String)
    (expand_variants : ACtxt → Ty → Bool × Output) (print_sub : ACtxt → Ty → Output)
    (hvis : c.mode.allows ty.serializable ty.deserializable = true)
    (hex : c.example' = some ex)
    (hb : startsWithChar ex '[' = true) :
    ACtxt.print_array expand_variants print_sub c ty = c.out.text ex := by
  simp [ACtxt.print_array, hvis, hex, hb]

/-- An array-printer context holding a whole-array example over an invisible
element type. -/
def actxtLitHidden : ACtxt :=
  { ty := tyHidden, mode := .serializableAndDeserializable, inline := false,
    example' := some "[1, 2]", out := out0 }

/-- Counterexample to C5 as stated: on an array whose element type is rejected
by the active mode, a resolved example beginning with the opening bracket is
not written verbatim — the printer returns the output unchanged, which differs
from the verbatim write. -/
theorem C5_print_array_literal_counterexample :
    startsWithChar "[1, 2]" '[' = true ∧
    ACtxt.print_array (fun c _ => (false, c.out)) (fun c _ => c.out.write "\"string\"")
      actxtLitHidden tyHidden = actxtLitHidden.out ∧
    actxtLitHidden.out ≠ actxtLitHidden.out.text "[1, 2]" := by
  refine ⟨by decide, rfl, by decide⟩

/-- An array-printer context holding a whole-array example. -/
def actxtLit : ACtxt :=
  { ty := tyString, mode := .serializableAndDeserializable, inline := false,
    example' := some "[1, 2]", out := out0 }

/-- Witness for C5: on `actxtLit` the whole-array example is written verbatim,
even under sub-printers that would write brackets and an ellipsis. -/
theorem C5_print_array_literal_witness :
    actxtLit.mode.allows tyString.serializable tyString.deserializable = true ∧
    actxtLit.example' = some "[1, 2]" ∧
    startsWithChar "[1, 2]" '[' = true ∧
    ACtxt.print_array (fun c _ => (false, c.out)) (fun c _ => c.out.write "\"string\"")
      actxtLit tyString = actxtLit.out.text "[1, 2]" :=
  ⟨rfl, rfl, by decide,
    C5_print_array_literal actxtLit tyString "[1, 2]" (fun c _ => (false, c.out))
      (fun c _ => c.out.write "\"string\"") rfl rfl (by decide)⟩

/-- C9: on an element type whose visibility flags are both rejected by the
active mode, the array printer writes nothing at all and leaves the output
unchanged, for every variant expansion and element printer. -/
theorem C9_print_array_invisible (c : ACtxt) (ty : Ty)
    (expand_variants : ACtxt → Ty → Bool × Output) (print_sub : ACtxt → Ty → Output)
    (h : c.mode.allows ty.serializable ty.deserializable = false) :
    ACtxt.print_array expand_variants print_sub c ty = c.out := by
  simp [ACtxt.print_array, h]

/-- An array-printer context used on the invisible element type. -/
def actxt0 : ACtxt :=
  { ty := tyHidden, mode := .serializableAndDeserializable, inline := false,
    example' := Option.none, out := out0 }

/-- Witness for C9: with the invisible element type the output is returned
unchanged, even under sub-printers that would write. -/
theorem C9_print_array_invisible_witness :
    actxt0.mode.allows tyHidden.serializable tyHidden.deserializable = false ∧
    ACtxt.print_array (fun c _ => (false, c.out)) (fun c _ => c.out.write "\"string\"")
      actxt0 tyHidden = actxt0.out :=
  ⟨rfl, C9_print_array_invisible actxt0 tyHidden (fun c _ => (false, c.out))
    (fun c _ => c.out.write "\"string\"") rfl⟩

/-- C7: the derived tag strategy is `External` when no untagged flag and no
tag or content attribute is given, `None` when the untagged flag is set,
`Internal` with the tag name for a tag attribute alone, and `Adjacent` with
both names when tag and content attributes are both given — each attribute
through either the doku or the serde channel. -/
theorem C7_expand_enum_tag :
    expand_enum_tag Option.none Option.none Option.none Option.none Option.none Option.none
      = Tag.external ∧
    (∀ (su : Option Bool) (dc sc dt st : Option String),
      expand_enum_tag (some true) su dc sc dt st = Tag.none) ∧
    (∀ (dc sc dt st : Option String),
      expand_enum_tag Option.none (some true) dc sc dt st = Tag.none) ∧
    (∀ (t : String) (st : Option String),
      expand_enum_tag Option.none Option.none Option.none Option.none (some t) st
        = Tag.internal t) ∧
    (∀ t : String,
      expand_enum_tag Option.none Option.none Option.none Option.none Option.none (some t)
        = Tag.internal t) ∧
    (∀ (t c : String) (sc st : Option String),
      expand_enum_tag Option.none Option.none (some c) sc (some t) st
        = Tag.adjacent t c) ∧
    (∀ (t c : String) (st : Option String),
      expand_enum_tag Option.none Option.none Option.none (some c) (some t) st
        = Tag.adjacent t c) ∧
    (∀ (t c : String) (sc : Option String),
      expand_enum_tag Option.none Option.none (some c) sc Option.none (some t)
        = Tag.adjacent t c) ∧
    (∀ (t c : String),
      expand_enum_tag Option.none Option.none Option.none (some c) Option.none (some t)
        = Tag.adjacent t c) := by
  refine ⟨rfl, ?_, ?_, ?_, ?_, ?_, ?_, ?_, ?_⟩ <;> intros <;> rfl

/-- C8: the default automatic-hint configuration enables both hint classes,
and the two flags are independently settable. -/
theorem C8_auto_comments_default :
    AutoComments.default.array_size = true ∧
    AutoComments.default.optional = true ∧
    (∀ a o : Bool,
      (AutoComments.mk a o).array_size = a ∧ (AutoComments.mk a o).optional = o) :=
  ⟨rfl, rfl, fun _ _ => ⟨rfl, rfl⟩⟩

end Doku
